import Mathlib

/-!
Shallow embedding of the `essay` crate (dtolnay/essay).

The crate consists of five Rust source files:
  * `lib.rs` — the crate root: an inner doc comment, two inner attributes, and
    four `mod` declarations, each with an explicit `#[path = "..."]` attribute
    naming one essay file.
  * four essay files, each a single `/** ... */` doc comment (the essay prose,
    whose first line is the title and whose third line is a byline naming the
    author and a `YYYY.MM.DD` date), followed by a `#[macro_export]`
    `macro_rules!` definition with exactly one rule: it matches the fixed
    braced record `({ date: "...", author: "...", })` with the literal date and
    author strings written in the source, and expands to nothing (`{}`).

The embedding transliterates these files: the marker definitions become
`Marker` values whose single-rule expansion behaviour is the function
`Marker.expand` (a literal token-for-token match against the fixed pattern,
producing the empty token stream on success and `none` — the compile-time
"no rules expected this token" error — otherwise); the crate's item structure
becomes explicit `Item` lists; and the line-level layout of the five files
becomes per-file category/length segments.
-/

namespace Essay

/-- A Rust lexical token, as far as the marker patterns need: identifiers,
punctuation, string literals and the brace delimiters. -/
inductive Tok where
  | ident : String → Tok
  | colon : Tok
  | comma : Tok
  | strLit : String → Tok
  | openBrace : Tok
  | closeBrace : Tok
  deriving DecidableEq, Repr

/-- A metadata marker definition. Each of the four essay files ends in a
`#[macro_export]` `macro_rules!` item with this shape; it is determined by its
name and the two literal strings in its single rule's pattern. -/
structure Marker where
  name : String
  date : String
  author : String
  deriving DecidableEq, Repr

/-- The token stream of the single rule's pattern,
`{ date:  "<date>", author:  "<author>", }` (the invocation argument is this
braced record), transliterated from the source. -/
def markerPattern (m : Marker) : List Tok :=
  [ Tok.openBrace,
    Tok.ident "date", Tok.colon, Tok.strLit m.date, Tok.comma,
    Tok.ident "author", Tok.colon, Tok.strLit m.author, Tok.comma,
    Tok.closeBrace ]

/-- Expansion behaviour of a marker definition: its single rule matches the
fixed literal pattern and expands to the empty token stream `{}`; any other
input matches no rule, which in Rust is a compile-time (build-time) error,
modelled as `none`. -/
def Marker.expand (m : Marker) (input : List Tok) : Option (List Tok) :=
  if input = markerPattern m then some [] else none

/-- One essay file: its file name, the title (first line of the doc comment),
the author and date appearing in the byline (third line of the doc comment,
`<sup>*by [Author], DATE*</sup>`), and the trailing marker definition. -/
structure EssayFile where
  fileName : String
  title : String
  bylineAuthor : String
  bylineDate : String
  marker : Marker
  deriving DecidableEq, Repr

/-- `src/2019-08-08-await-a-minute.rs`. -/
def awaitAMinute : EssayFile :=
  { fileName := "2019-08-08-await-a-minute.rs"
    title := "Await a minute, why bother?"
    bylineAuthor := "David Tolnay"
    bylineDate := "2019.08.08"
    marker :=
      { name := "_01__await_a_minute"
        date := "August 8, 2019"
        author := "David Tolnay" } }

/-- `src/2019-10-01-reference-types.rs`. -/
def referenceTypes : EssayFile :=
  { fileName := "2019-10-01-reference-types.rs"
    title := "Accurate mental model for Rust's reference types"
    bylineAuthor := "David Tolnay"
    bylineDate := "2019.10.01"
    marker :=
      { name := "_02__reference_types"
        date := "October 1, 2019"
        author := "David Tolnay" } }

/-- `src/2019-12-09-soundness-bugs.rs`. -/
def soundnessBugs : EssayFile :=
  { fileName := "2019-12-09-soundness-bugs.rs"
    title := "Soundness bugs in Rust libraries: can't live with 'em, can't live without 'em"
    bylineAuthor := "David Tolnay"
    bylineDate := "2019.12.09"
    marker :=
      { name := "_03__soundness_bugs"
        date := "December 9, 2019"
        author := "David Tolnay" } }

/-- `src/2020-02-20-triage-scale.rs`. Note the source's byline date reads
`2020.20.02` and the marker's date string reads `Feburary 20, 2020`,
transliterated here exactly as written. -/
def triageScale : EssayFile :=
  { fileName := "2020-02-20-triage-scale.rs"
    title := "Triage at scale for the Rust team"
    bylineAuthor := "David Tolnay"
    bylineDate := "2020.20.02"
    marker :=
      { name := "_04__triage_scale"
        date := "Feburary 20, 2020"
        author := "David Tolnay" } }

/-- The four essay files, in the order lib.rs declares them. -/
def essayFiles : List EssayFile :=
  [awaitAMinute, referenceTypes, soundnessBugs, triageScale]

/-- The four exported marker definitions. -/
def markers : List Marker :=
  essayFiles.map EssayFile.marker

/-- A `mod` declaration in lib.rs: its optional explicit `#[path = "..."]`
attribute value and the module name. -/
structure ModDecl where
  pathAttr : Option String
  name : String
  deriving DecidableEq, Repr

/-- A Rust item, classified by kind as far as this crate needs. The
constructors for functions, type definitions, constants and statics are the
kinds the crate could define but does not. -/
inductive Item where
  | markerDef : Marker → Item
  | modDecl : ModDecl → Item
  | fnDef : String → Item
  | typeDef : String → Item
  | constDef : String → Item
  | staticDef : Bool → String → Item
  deriving DecidableEq, Repr

/-- The items of lib.rs, transliterated. Its inner doc comment (`//!`) and the
two inner attributes (`#![allow(non_snake_case)]`, `#![doc(html_logo_url =
...)]`) are attributes of the crate, not items; the items are exactly the four
`mod` declarations, each with an explicit `#[path]` attribute. -/
def libItems : List Item :=
  [ Item.modDecl ⟨some "2019-08-08-await-a-minute.rs", "_01"⟩,
    Item.modDecl ⟨some "2019-10-01-reference-types.rs", "_02"⟩,
    Item.modDecl ⟨some "2019-12-09-soundness-bugs.rs", "_03"⟩,
    Item.modDecl ⟨some "2020-02-20-triage-scale.rs", "_04"⟩ ]

/-- All items of the crate: the lib.rs items followed by the single item of
each of the four modules (the marker definition at the end of each essay
file). -/
def crateItems : List Item :=
  libItems ++ essayFiles.map (fun e => Item.markerDef e.marker)

/-- Whether an item is exported from the crate. The four marker definitions
carry `#[macro_export]` (exported at the crate root); the `mod` declarations
are private (no `pub`), and no other item kinds occur. -/
def Item.isExported : Item → Bool
  | Item.markerDef _ => true
  | _ => false

/-- The crate's exported items. -/
def exportedItems : List Item :=
  crateItems.filter Item.isExported

def Item.isMarkerDef : Item → Bool
  | Item.markerDef _ => true
  | _ => false

def Item.isModDecl : Item → Bool
  | Item.modDecl _ => true
  | _ => false

/-- The explicit `#[path]` attribute value of a module declaration item. -/
def Item.modPath : Item → Option String
  | Item.modDecl d => d.pathAttr
  | _ => none

/-- Whether an item defines a function, a type, a constant or a static. -/
def Item.definesRuntimeEntity : Item → Bool
  | Item.fnDef _ => true
  | Item.typeDef _ => true
  | Item.constDef _ => true
  | Item.staticDef _ _ => true
  | _ => false

/-- Whether an item defines an operation that can run (and hence mutate
anything) at runtime: functions can; mutable statics are mutable state.
Marker definitions and module declarations define no runtime operation. -/
def Item.isOperation : Item → Bool
  | Item.fnDef _ => true
  | Item.staticDef b _ => b
  | _ => false

/-- The value of a two-digit decimal numeral. -/
def twoDigitVal (a b : Char) : Nat :=
  (a.toNat - 48) * 10 + (b.toNat - 48)

/-- Well-formedness of a byline date string: the essays write byline dates as
`YYYY.MM.DD` (eight digits with two dots), with a calendar month `01`-`12` and
a day `01`-`31`. -/
def wellFormedBylineDate (s : String) : Bool :=
  match s.data with
  | [y1, y2, y3, y4, c1, m1, m2, c2, d1, d2] =>
    c1 = '.' && c2 = '.' &&
    ([y1, y2, y3, y4, m1, m2, d1, d2].all Char.isDigit) &&
    (1 ≤ twoDigitVal m1 m2) && (twoDigitVal m1 m2 ≤ 12) &&
    (1 ≤ twoDigitVal d1 d2) && (twoDigitVal d1 d2 ≤ 31)
  | _ => false

/-- The twelve English month names. -/
def monthNames : List String :=
  [ "January", "February", "March", "April", "May", "June", "July",
    "August", "September", "October", "November", "December" ]

/-- The value of a decimal numeral (digits already checked separately). -/
def digitsVal (cs : List Char) : Nat :=
  cs.foldl (fun acc c => acc * 10 + (c.toNat - 48)) 0

/-- Split a character list into the maximal runs separated by a given
character (the runs between consecutive separators, empty runs included). -/
def splitOnChar (sep : Char) : List Char → List (List Char)
  | [] => [[]]
  | c :: cs =>
    let r := splitOnChar sep cs
    if c = sep then [] :: r
    else
      match r with
      | [] => [[c]]
      | w :: ws => (c :: w) :: ws

/-- Well-formedness of a marker date string: the markers write dates as
`Month D, YYYY` — an English month name, a space, a day numeral `1`-`31`
followed by a comma, a space, and a four-digit year. -/
def wellFormedMarkerDate (s : String) : Bool :=
  match splitOnChar ' ' s.data with
  | [mon, dayComma, year] =>
    monthNames.contains (String.mk mon) &&
    (match dayComma.reverse with
     | c :: ds =>
       c = ',' && !ds.isEmpty && ds.all Char.isDigit &&
       1 ≤ digitsVal ds.reverse && digitsVal ds.reverse ≤ 31
     | [] => false) &&
    year.length = 4 && year.all Char.isDigit
  | _ => false

/-- The `YYYY-MM-DD` prefix of an essay file name, decoded as a
(year, month, day) triple of numbers; `none` when the name does not start
with that shape. -/
def fileNameDate (s : String) : Option (Nat × Nat × Nat) :=
  match s.data with
  | y1 :: y2 :: y3 :: y4 :: c1 :: m1 :: m2 :: c2 :: d1 :: d2 :: _ =>
    if c1 = '-' && c2 = '-' && ([y1, y2, y3, y4, m1, m2, d1, d2].all Char.isDigit) then
      some (digitsVal [y1, y2, y3, y4], twoDigitVal m1 m2, twoDigitVal d1 d2)
    else
      none
  | _ => none

/-- Strict chronological order on (year, month, day) triples. -/
def dateLt : Nat × Nat × Nat → Nat × Nat × Nat → Bool
  | (y1, m1, d1), (y2, m2, d2) =>
    y1 < y2 || (y1 = y2 && (m1 < m2 || (m1 = m2 && d1 < d2)))

/-- Strict chronological order on essay file names, via the dates their names
encode; names that do not encode a date compare as unordered. -/
def fileNameLt (a b : String) : Bool :=
  match fileNameDate a, fileNameDate b with
  | some x, some y => dateLt x y
  | _, _ => false

/-- Whether a list of essay file names is in strictly increasing
chronological order of the dates the names encode. -/
def chronologicallyIncreasing : List String → Bool
  | [] => true
  | [_] => true
  | a :: b :: rest => fileNameLt a b && chronologicallyIncreasing (b :: rest)

/-- Categories of source lines occurring in the five files of this crate.
`code` stands for lines of executable logic (function bodies, expressions,
algorithms); it is the category against which the "engineering logic" count is
taken, and no line of this crate falls in it. -/
inductive LineCat where
  | docComment
  | blank
  | attr
  | modDecl
  | markerDef
  | code
  deriving DecidableEq, Repr

/-- A run of consecutive source lines sharing one category. -/
structure Segment where
  cat : LineCat
  len : Nat
  deriving DecidableEq, Repr

/-- A source file: its name and its lines, as category runs in file order. -/
structure SourceFile where
  name : String
  segments : List Segment
  deriving DecidableEq, Repr

/-- Number of lines of a source file. -/
def SourceFile.lineCount (f : SourceFile) : Nat :=
  (f.segments.map Segment.len).sum

/-- Number of lines of a source file falling in a given category. -/
def SourceFile.linesIn (f : SourceFile) (c : LineCat) : Nat :=
  ((f.segments.filter (fun s => s.cat = c)).map Segment.len).sum

/-- The five source files with their line layout, transliterated:
each essay file is one doc comment, the `#[macro_export]` attribute line, the
six lines of the marker definition, and one trailing blank line; lib.rs is
its doc-comment line, two inner attribute lines, and four attribute +
`mod` declaration pairs, separated by blank lines (its final line has no
trailing newline but is a line of the file). -/
def sourceFiles : List SourceFile :=
  [ ⟨"lib.rs",
     [⟨LineCat.docComment, 1⟩, ⟨LineCat.blank, 1⟩, ⟨LineCat.attr, 2⟩,
      ⟨LineCat.blank, 1⟩, ⟨LineCat.attr, 1⟩, ⟨LineCat.modDecl, 1⟩,
      ⟨LineCat.blank, 1⟩, ⟨LineCat.attr, 1⟩, ⟨LineCat.modDecl, 1⟩,
      ⟨LineCat.blank, 1⟩, ⟨LineCat.attr, 1⟩, ⟨LineCat.modDecl, 1⟩,
      ⟨LineCat.blank, 1⟩, ⟨LineCat.attr, 1⟩, ⟨LineCat.modDecl, 1⟩]⟩,
    ⟨"2019-08-08-await-a-minute.rs",
     [⟨LineCat.docComment, 481⟩, ⟨LineCat.attr, 1⟩, ⟨LineCat.markerDef, 6⟩,
      ⟨LineCat.blank, 1⟩]⟩,
    ⟨"2019-10-01-reference-types.rs",
     [⟨LineCat.docComment, 302⟩, ⟨LineCat.attr, 1⟩, ⟨LineCat.markerDef, 6⟩,
      ⟨LineCat.blank, 1⟩]⟩,
    ⟨"2019-12-09-soundness-bugs.rs",
     [⟨LineCat.docComment, 275⟩, ⟨LineCat.attr, 1⟩, ⟨LineCat.markerDef, 6⟩,
      ⟨LineCat.blank, 1⟩]⟩,
    ⟨"2020-02-20-triage-scale.rs",
     [⟨LineCat.docComment, 133⟩, ⟨LineCat.attr, 1⟩, ⟨LineCat.markerDef, 6⟩,
      ⟨LineCat.blank, 1⟩]⟩ ]

/-- Total line count of the repository's source. -/
def totalLines : Nat :=
  (sourceFiles.map SourceFile.lineCount).sum

/-- Total number of lines of executable engineering logic. -/
def logicLines : Nat :=
  (sourceFiles.map (fun f => f.linesIn LineCat.code)).sum

/-- C1: every one of the four exported marker definitions, invoked on its
fixed braced date/author record, expands to the empty token stream; and on
every input whatsoever, the only output it can produce is the empty token
stream (its single rule does nothing else). -/
theorem markers_expand_to_nothing :
    ∀ m ∈ markers,
      m.expand (markerPattern m) = some [] ∧
      ∀ input out, m.expand input = some out → out = [] := by
  intro m _
  refine ⟨by simp [Marker.expand], ?_⟩
  intro input out h
  by_cases hin : input = markerPattern m
  · simp [Marker.expand, hin] at h
    exact h
  · simp [Marker.expand, hin] at h

/-- Witness for C1: the first marker, on its fixed record, expands to the
empty token stream, and that matching output is indeed empty. -/
theorem markers_expand_to_nothing_witness :
    awaitAMinute.marker.expand (markerPattern awaitAMinute.marker) = some [] ∧
    ([] : List Tok) = [] :=
  ⟨(markers_expand_to_nothing awaitAMinute.marker (by decide)).1,
   (markers_expand_to_nothing awaitAMinute.marker (by decide)).2
     (markerPattern awaitAMinute.marker) [] (by decide)⟩

/-- C2: for each of the four marker definitions, an invocation is rejected
(no rule matches, which for a Rust declarative definition of this kind is a
build-time error, modelled as `none`) exactly when the input token stream
differs from the fixed two-field literal record written in its definition. -/
theorem markers_reject_iff_mismatch :
    ∀ m ∈ markers, ∀ input : List Tok,
      m.expand input = none ↔ input ≠ markerPattern m := by
  intro m _ input
  unfold Marker.expand
  by_cases h : input = markerPattern m <;> simp [h]

/-- Witness for C2: the fourth marker rejects the empty input. -/
theorem markers_reject_iff_mismatch_witness :
    triageScale.marker.expand [] = none :=
  (markers_reject_iff_mismatch triageScale.marker (by decide) []).mpr (by decide)

/-- C3 fails on the fourth essay (`2020-02-20-triage-scale.rs`): its byline
date reads `2020.20.02` — month 20 under the `YYYY.MM.DD` convention the
other three bylines follow — and its marker date string reads
`Feburary 20, 2020`, which is not an English month name. Every title is
non-empty and the other three essays carry well-formed dates in both
places. -/
theorem triage_scale_dates_malformed :
    triageScale.bylineDate = "2020.20.02" ∧
    wellFormedBylineDate triageScale.bylineDate = false ∧
    triageScale.marker.date = "Feburary 20, 2020" ∧
    wellFormedMarkerDate triageScale.marker.date = false ∧
    ((essayFiles.take 3).all fun e =>
      wellFormedBylineDate e.bylineDate && wellFormedMarkerDate e.marker.date) = true ∧
    (essayFiles.all fun e => !e.title.isEmpty) = true := by
  refine ⟨rfl, by decide, rfl, by decide, by decide, by decide⟩

/-- C4: every essay has a non-empty title, its marker records a (non-empty)
literal date string and literal author string — both present as string
literal tokens in the marker's fixed pattern — and no item of the crate
defines an operation able to run, and hence mutate anything, at runtime. -/
theorem essays_invariant_and_no_mutating_operation :
    (essayFiles.all fun e =>
      !e.title.isEmpty && !e.marker.date.isEmpty && !e.marker.author.isEmpty &&
      (markerPattern e.marker).contains (Tok.strLit e.marker.date) &&
      (markerPattern e.marker).contains (Tok.strLit e.marker.author)) = true ∧
    (crateItems.all fun i => !i.isOperation) = true := by
  exact ⟨by decide, by decide⟩

/-- C5: the crate's exported items are exactly the four marker definitions
(in declaration order), every exported item is a marker definition, and no
item of the crate — exported or not — defines a function, type, constant or
static (in particular no mutable state). -/
theorem crate_exports_only_four_markers :
    exportedItems = [Item.markerDef awaitAMinute.marker,
      Item.markerDef referenceTypes.marker,
      Item.markerDef soundnessBugs.marker,
      Item.markerDef triageScale.marker] ∧
    (exportedItems.all Item.isMarkerDef) = true ∧
    (crateItems.all fun i => !i.definesRuntimeEntity) = true := by
  exact ⟨by decide, by decide, by decide⟩

/-- C6: lib.rs consists of exactly four items, each of them a module
declaration, and their explicit `#[path]` attributes name exactly the four
essay files in order; it contains no other item, function or expression. -/
theorem lib_rs_pure_aggregation :
    libItems.length = 4 ∧
    (libItems.all Item.isModDecl) = true ∧
    libItems.filterMap Item.modPath = essayFiles.map EssayFile.fileName := by
  exact ⟨by decide, by decide, by decide⟩

/-- C7: the five source files total exactly 1239 lines (lib.rs's final line
carries no trailing newline but is a line), no line of any file is a line of
executable engineering logic, and every line falls in one of the prose or
boilerplate categories (doc comment, blank, attribute, module declaration,
marker definition). -/
theorem source_is_1239_lines_no_logic :
    totalLines = 1239 ∧
    logicLines = 0 ∧
    sourceFiles.length = 5 ∧
    (sourceFiles.all fun f =>
      f.segments.all fun s => !(s.cat == LineCat.code)) = true := by
  exact ⟨by decide, by decide, by decide, by decide⟩

/-- C8: all four markers record the author string "David Tolnay", and each
essay's byline names the same author as its marker. -/
theorem author_agrees_david_tolnay :
    (essayFiles.all fun e =>
      e.marker.author == "David Tolnay" &&
      e.bylineAuthor == e.marker.author) = true := by decide

/-- C9: the `#[path]` attributes of the four module declarations in lib.rs,
in declaration order, are exactly the four essay file names; those names are
in strictly increasing chronological order of the dates they encode; and the
encoded dates are 2019-08-08, 2019-10-01, 2019-12-09 and 2020-02-20. -/
theorem modules_chronological :
    libItems.filterMap Item.modPath = essayFiles.map EssayFile.fileName ∧
    chronologicallyIncreasing (libItems.filterMap Item.modPath) = true ∧
    fileNameDate awaitAMinute.fileName = some (2019, 8, 8) ∧
    fileNameDate referenceTypes.fileName = some (2019, 10, 1) ∧
    fileNameDate soundnessBugs.fileName = some (2019, 12, 9) ∧
    fileNameDate triageScale.fileName = some (2020, 2, 20) := by
  exact ⟨by decide, by decide, by decide, by decide, by decide, by decide⟩

end Essay
